import Mathlib

/-!
Shallow embedding of the freepik_downloader_bot repository, covering the
entitlement store (`src/database.py`), the admission/enqueue paths of the
chat front-end (`src/telegram_bot.py`, `handle_url` and
`handle_license_confirmation`), and the queue worker
(`src/main.py`, `process_download_queue`).

Modelling conventions:
* Timestamps are natural numbers measured in days, so Python's
  `now + datetime.timedelta(days=d)` becomes `now + d`.  `utcnow()` results
  are passed in as explicit `now`/`today` parameters.
* Mongo collections and the mock database's in-memory lists are both lists
  of records; `find_one` / the mock's linear scans are `List.find?`, and
  `update_one` / the mock's first-match loops update the first matching
  element.  The mock's download-limit dictionary is keyed by the string
  `f"{user_id}_{service}_{date}"`, embedded here as the triple of its
  components.
* Document ids (`_id`) are naturals (the mock uses `len(list) + 1`).
* Python truthiness on the optional `admin_notes` string (`None` and `""`
  are falsy) is made explicit.
-/

namespace FreepikBot

/-- Timestamps, in days. -/
abbrev Time := Nat

/-- One entry of an append-only `status_history` list. -/
structure HistoryEntry where
  status : String
  timestamp : Time
  notes : String
deriving DecidableEq, Repr

/-- A subscription document (`database.py`, `create_subscription`). -/
structure Subscription where
  sid : Nat
  user_id : Nat
  service : String
  plan : String
  start_date : Time
  end_date : Time
  status : String
  payment_id : Option Nat
  activated_at : Option Time
  last_status_update : Time
  status_history : List HistoryEntry
deriving DecidableEq, Repr

/-- A subscription plan document (`database.py`, default plans and
`add_subscription_plan`).  Fields not used by any claim are omitted. -/
structure SubscriptionPlan where
  service : String
  plan_id : String
  duration_days : Nat
  download_limit : Nat
  is_active : Bool
deriving DecidableEq, Repr

/-- A payment document (`database.py`, `create_payment`).  Fields not used
by any claim are omitted. -/
structure Payment where
  pid : Nat
  user_id : Nat
  status : String
  admin_notes : String
  status_history : List HistoryEntry
deriving DecidableEq, Repr

/-- A daily download-limit record (`database.py`, `get_download_limit`). -/
structure LimitRecord where
  user_id : Nat
  service : String
  date : Time
  count : Nat
  limit : Nat
deriving DecidableEq, Repr

/-- A download audit record (`database.py`, `record_download`). -/
structure Download where
  user_id : Nat
  service : String
  resource_url : String
  file_name : String
  file_size : Nat
deriving DecidableEq, Repr

/-- The entitlement store: the collections touched by the claims. -/
structure Store where
  subscriptions : List Subscription
  payments : List Payment
  download_limits : List LimitRecord
  subscription_plans : List SubscriptionPlan
  downloads : List Download
deriving DecidableEq, Repr

namespace MockDatabase

/-- `MockDatabase.get_active_subscription` (database.py:79-89): linear scan
returning the first subscription of the user/service with `end_date > now`
and status `"active"`. -/
def get_active_subscription (db : Store) (now : Time) (user_id : Nat)
    (service : String) : Option Subscription :=
  db.subscriptions.find? (fun sub =>
    sub.user_id == user_id && sub.service == service &&
    decide (now < sub.end_date) && sub.status == "active")

/-- `MockDatabase.get_subscription_plan` (database.py:355-362): first plan
with matching service and plan id whose active flag is set. -/
def get_subscription_plan (db : Store) (service plan_id : String) :
    Option SubscriptionPlan :=
  db.subscription_plans.find? (fun p =>
    p.service == service && p.plan_id == plan_id && p.is_active)

/-- `MockDatabase.create_subscription` (database.py:95-136).  Returns the
raised `ValueError` message as `.error` and in that case leaves the store
untouched (the Python `raise` happens before the append). -/
def create_subscription (db : Store) (now : Time) (user_id : Nat)
    (service plan : String) (payment_id : Option Nat) :
    Except String Subscription × Store :=
  let end_date? : Except String Time :=
    match get_subscription_plan db service plan with
    | some plan_details => .ok (now + plan_details.duration_days)
    | none =>
      if plan == "monthly" then .ok (now + 30)
      else if plan == "yearly" then .ok (now + 365)
      else .error ("Invalid plan: " ++ plan)
  match end_date? with
  | .error msg => (.error msg, db)
  | .ok end_date =>
    let subscription : Subscription :=
      { sid := db.subscriptions.length + 1
        user_id := user_id
        service := service
        plan := plan
        start_date := now
        end_date := end_date
        status := "pending"
        payment_id := payment_id
        activated_at := none
        last_status_update := now
        status_history :=
          [⟨"pending", now, "Subscription created, awaiting payment verification"⟩] }
    (.ok subscription, { db with subscriptions := db.subscriptions ++ [subscription] })

/-- The record update applied by `activate_subscription` to the matched
subscription (database.py:144-156). -/
def apply_activation (sub : Subscription) (now : Time) : Subscription :=
  { sub with
      status := "active"
      activated_at := some now
      last_status_update := now
      status_history := sub.status_history ++ [⟨"active", now, "Subscription activated"⟩] }

/-- The first-match loop of `MockDatabase.activate_subscription`
(database.py:142-159): mutate the first subscription whose id matches and
return `true`; return `false` leaving the list unchanged when none does. -/
def activate_in_list (subs : List Subscription) (now : Time)
    (subscription_id : Nat) : Bool × List Subscription :=
  match subs with
  | [] => (false, [])
  | sub :: rest =>
    if sub.sid == subscription_id then
      (true, apply_activation sub now :: rest)
    else
      let r := activate_in_list rest now subscription_id
      (r.1, sub :: r.2)

/-- `MockDatabase.activate_subscription` (database.py:138-159). -/
def activate_subscription (db : Store) (now : Time) (subscription_id : Nat) :
    Bool × Store :=
  let r := activate_in_list db.subscriptions now subscription_id
  (r.1, { db with subscriptions := r.2 })

/-- Python truthiness of the optional `admin_notes` argument (`None` and the
empty string are falsy). -/
def note_provided : Option String → Bool
  | none => false
  | some s => !(s == "")

/-- The history note text of `update_payment_status` (database.py:241):
`admin_notes if admin_notes else f"Status changed to ..."`. -/
def status_note (status : String) (admin_notes : Option String) : String :=
  match admin_notes with
  | some s => if s == "" then "Status changed to " ++ status else s
  | none => "Status changed to " ++ status

/-- The record update applied by `update_payment_status` to the matched
payment (database.py:229-242): the status is overwritten unconditionally,
`admin_notes` only when a truthy note is given, and a history entry is
always appended. -/
def apply_payment_update (p : Payment) (now : Time) (status : String)
    (admin_notes : Option String) : Payment :=
  { p with
      status := status
      admin_notes :=
        if note_provided admin_notes then (admin_notes.getD p.admin_notes)
        else p.admin_notes
      status_history := p.status_history ++ [⟨status, now, status_note status admin_notes⟩] }

/-- The first-match loop of `MockDatabase.update_payment_status`
(database.py:227-245). -/
def update_in_payments (payments : List Payment) (now : Time)
    (payment_id : Nat) (status : String) (admin_notes : Option String) :
    Bool × List Payment :=
  match payments with
  | [] => (false, [])
  | p :: rest =>
    if p.pid == payment_id then
      (true, apply_payment_update p now status admin_notes :: rest)
    else
      let r := update_in_payments rest now payment_id status admin_notes
      (r.1, p :: r.2)

/-- `MockDatabase.update_payment_status` (database.py:223-245). -/
def update_payment_status (db : Store) (now : Time) (payment_id : Nat)
    (status : String) (admin_notes : Option String) : Bool × Store :=
  let r := update_in_payments db.payments now payment_id status admin_notes
  (r.1, { db with payments := r.2 })

/-- The key of the download-limit dictionary,
`f"{user_id}_{service}_{today_dt}"`, embedded as a match on its three
components. -/
def limit_key_matches (user_id : Nat) (service : String) (today : Time)
    (r : LimitRecord) : Bool :=
  r.user_id == user_id && r.service == service && r.date == today

/-- The limit computed for a fresh record in `get_download_limit`
(database.py:298-315): 0 without an active subscription; the plan's
`download_limit` when the plan record exists; the legacy hard-coded 10 for
the two known freepik plan ids. -/
def compute_limit (db : Store) (now : Time) (user_id : Nat) (service : String) : Nat :=
  match get_active_subscription db now user_id service with
  | none => 0
  | some subscription =>
    match get_subscription_plan db service subscription.plan with
    | some plan => plan.download_limit
    | none =>
      if service == "freepik" &&
         (subscription.plan == "monthly" || subscription.plan == "yearly")
      then 10 else 0

/-- `MockDatabase.get_download_limit` (database.py:290-327): return the
existing record for today, else create and store a fresh record with
count 0 and the computed limit. -/
def get_download_limit (db : Store) (now today : Time) (user_id : Nat)
    (service : String) : LimitRecord × Store :=
  match db.download_limits.find? (limit_key_matches user_id service today) with
  | some r => (r, db)
  | none =>
    let r : LimitRecord :=
      { user_id := user_id, service := service, date := today
        count := 0, limit := compute_limit db now user_id service }
    (r, { db with download_limits := db.download_limits ++ [r] })

/-- In-place `count += 1` on the first record matching the key. -/
def increment_in_limits (limits : List LimitRecord) (user_id : Nat)
    (service : String) (today : Time) : List LimitRecord :=
  match limits with
  | [] => []
  | r :: rest =>
    if limit_key_matches user_id service today r then
      { r with count := r.count + 1 } :: rest
    else
      r :: increment_in_limits rest user_id service today

/-- `MockDatabase.increment_download_count` (database.py:329-340): first
ensure today's record exists via `get_download_limit`, then increment its
count. -/
def increment_download_count (db : Store) (now today : Time) (user_id : Nat)
    (service : String) : Bool × Store :=
  let ensured := (get_download_limit db now today user_id service).2
  (true, { ensured with
            download_limits :=
              increment_in_limits ensured.download_limits user_id service today })

/-- `MockDatabase.can_download` (database.py:342-347): count strictly below
limit on today's (possibly freshly created) record. -/
def can_download (db : Store) (now today : Time) (user_id : Nat)
    (service : String) : Bool × Store :=
  let r := get_download_limit db now today user_id service
  (decide (r.1.count < r.1.limit), r.2)

/-- `MockDatabase.record_download` (database.py:247-260): append an audit
record. -/
def record_download (db : Store) (user_id : Nat) (service resource_url file_name : String)
    (file_size : Nat) : Download × Store :=
  let d : Download :=
    { user_id := user_id, service := service, resource_url := resource_url
      file_name := file_name, file_size := file_size }
  (d, { db with downloads := db.downloads ++ [d] })

end MockDatabase

/-! The `Database` class's `_real_*` methods, the MongoDB path.  Collections
are embedded as lists of documents; `find_one` is `List.find?` over the
query predicate in the order the query writes its conditions, and
`update_one` updates the first matching document. -/

namespace Database

/-- `Database._real_get_active_subscription` (database.py:678-713): a single
`find_one` on user id, service, `end_date > now` and status `"active"`;
no sort, so the first document in collection order wins. -/
def real_get_active_subscription (db : Store) (now : Time) (user_id : Nat)
    (service : String) : Option Subscription :=
  db.subscriptions.find? (fun sub =>
    sub.user_id == user_id && sub.service == service &&
    decide (now < sub.end_date) && sub.status == "active")

/-- `Database._real_get_subscription_plan` (database.py:1103-1110):
`find_one` on service, plan id and `is_active: True`. -/
def real_get_subscription_plan (db : Store) (service plan_id : String) :
    Option SubscriptionPlan :=
  db.subscription_plans.find? (fun p =>
    p.service == service && p.plan_id == plan_id && p.is_active)

/-- `Database._real_create_subscription` (database.py:726-768): same plan
and legacy-fallback logic as the mock; the `raise` happens before the
insert, so the store is untouched on error. -/
def real_create_subscription (db : Store) (now : Time) (user_id : Nat)
    (service plan : String) (payment_id : Option Nat) :
    Except String Subscription × Store :=
  let end_date? : Except String Time :=
    match real_get_subscription_plan db service plan with
    | some plan_details => .ok (now + plan_details.duration_days)
    | none =>
      if plan == "monthly" then .ok (now + 30)
      else if plan == "yearly" then .ok (now + 365)
      else .error ("Invalid plan: " ++ plan)
  match end_date? with
  | .error msg => (.error msg, db)
  | .ok end_date =>
    let subscription : Subscription :=
      { sid := db.subscriptions.length + 1
        user_id := user_id
        service := service
        plan := plan
        start_date := now
        end_date := end_date
        status := "pending"
        payment_id := payment_id
        activated_at := none
        last_status_update := now
        status_history :=
          [⟨"pending", now, "Subscription created, awaiting payment verification"⟩] }
    (.ok subscription, { db with subscriptions := db.subscriptions ++ [subscription] })

/-- The `update_one` of `_real_activate_subscription` (database.py:778-794):
`$set` status/activated_at/last_status_update plus `$push` of a history
entry on the first document matching the id.  Because the `$push` always
modifies a matched document, `modified_count > 0` holds exactly when a
match exists. -/
def real_activate_in_subs (subs : List Subscription) (now : Time)
    (subscription_id : Nat) : Bool × List Subscription :=
  match subs with
  | [] => (false, [])
  | sub :: rest =>
    if sub.sid == subscription_id then
      (true, MockDatabase.apply_activation sub now :: rest)
    else
      let r := real_activate_in_subs rest now subscription_id
      (r.1, sub :: r.2)

/-- `Database._real_activate_subscription` (database.py:773-796). -/
def real_activate_subscription (db : Store) (now : Time)
    (subscription_id : Nat) : Bool × Store :=
  let r := real_activate_in_subs db.subscriptions now subscription_id
  (r.1, { db with subscriptions := r.2 })

/-- The `update_one` of `_real_update_payment_status` (database.py:905-931):
`$set` of status (and of `admin_notes` only when the note is truthy) plus
`$push` of the history entry, on the first payment matching the id;
`modified_count > 0` holds exactly when a match exists. -/
def real_update_in_payments (payments : List Payment) (now : Time)
    (payment_id : Nat) (status : String) (admin_notes : Option String) :
    Bool × List Payment :=
  match payments with
  | [] => (false, [])
  | p :: rest =>
    if p.pid == payment_id then
      (true, MockDatabase.apply_payment_update p now status admin_notes :: rest)
    else
      let r := real_update_in_payments rest now payment_id status admin_notes
      (r.1, p :: r.2)

/-- `Database._real_update_payment_status` (database.py:901-934). -/
def real_update_payment_status (db : Store) (now : Time) (payment_id : Nat)
    (status : String) (admin_notes : Option String) : Bool × Store :=
  let r := real_update_in_payments db.payments now payment_id status admin_notes
  (r.1, { db with payments := r.2 })

/-- `Database._real_get_download_limit` (database.py:1003-1050): `find_one`
on (user, service, today); on a miss, compute the limit from the active
subscription's plan (with the same legacy fallback as the mock) and insert
a fresh zero-count record. -/
def real_get_download_limit (db : Store) (now today : Time) (user_id : Nat)
    (service : String) : LimitRecord × Store :=
  match db.download_limits.find? (MockDatabase.limit_key_matches user_id service today) with
  | some r => (r, db)
  | none =>
    let limit : Nat :=
      match real_get_active_subscription db now user_id service with
      | none => 0
      | some subscription =>
        match real_get_subscription_plan db service subscription.plan with
        | some plan => plan.download_limit
        | none =>
          if service == "freepik" &&
             (subscription.plan == "monthly" || subscription.plan == "yearly")
          then 10 else 0
    let r : LimitRecord :=
      { user_id := user_id, service := service, date := today
        count := 0, limit := limit }
    (r, { db with download_limits := db.download_limits ++ [r] })

/-- `Database._real_can_download` (database.py:1079-1085): count strictly
below limit on today's (possibly freshly created) record. -/
def real_can_download (db : Store) (now today : Time) (user_id : Nat)
    (service : String) : Bool × Store :=
  let r := real_get_download_limit db now today user_id service
  (decide (r.1.count < r.1.limit), r.2)

end Database

/-! ### The bot layer: admission, enqueue and the worker loop.

The shared state of `telegram_bot.py` / `main.py`: the bounded FIFO
`download_queue` (a `queue.Queue(maxsize=max_queue_size)`, created in
`utils.create_shared_resources`), the `active_downloads` dict
(user id → phase string) and the entitlement store.  The lock only
serialises accesses and is not modelled. -/

/-- A queue entry: the tuple
`(user_id, chat_id, resource_url, message_id[, license_only])` put by
`handle_url` (4 elements, `license_only = False`) and
`handle_license_confirmation` (5 elements, `license_only = True`). -/
structure Job where
  user_id : Nat
  chat_id : Nat
  resource_url : String
  message_id : Nat
  license_only : Bool
deriving DecidableEq, Repr

/-- The cross-thread shared state. -/
structure BotState where
  db : Store
  active_downloads : List (Nat × String)
  download_queue : List Job
  max_queue_size : Nat
deriving DecidableEq, Repr

/-- Dictionary lookup `active_downloads.get(user_id)`. -/
def lookup_active (s : BotState) (user_id : Nat) : Option String :=
  (s.active_downloads.find? (fun p => p.1 == user_id)).map Prod.snd

/-- Dictionary write `active_downloads[user_id] = phase`. -/
def set_active (active : List (Nat × String)) (user_id : Nat)
    (phase : String) : List (Nat × String) :=
  if active.any (fun p => p.1 == user_id) then
    active.map (fun p => if p.1 == user_id then (p.1, phase) else p)
  else
    active ++ [(user_id, phase)]

/-- Guarded dictionary delete
`if user_id in active_downloads: del active_downloads[user_id]`. -/
def del_active (active : List (Nat × String)) (user_id : Nat) :
    List (Nat × String) :=
  active.filter (fun p => p.1 != user_id)

/-- `queue.Queue.put_nowait` raises `queue.Full` iff the queue was created
with a positive maxsize and currently holds that many items. -/
def queue_full (s : BotState) : Bool :=
  decide (0 < s.max_queue_size) && decide (s.max_queue_size ≤ s.download_queue.length)

/-- The outcomes of the admission/enqueue path of `handle_url`
(telegram_bot.py:676-783). -/
inductive AdmissionResult where
  | accepted (position : Nat)
  | noSubscription
  | quotaExceeded
  | alreadyRunning
  | alreadyQueued
  | queueFull
deriving DecidableEq, Repr

/-- The admission/enqueue tail of `handle_url` (telegram_bot.py:676-783),
after URL validation.  In source order: `get_active_subscription` and
`can_download` are both evaluated first (so the lazy creation of today's
limit record happens even on rejection); then the rejections fire in the
order no-subscription, quota, already-running, already-queued, queue-full;
on success the job is appended, the position reported is the queue length
after the put, and `increment_download_count` runs last. -/
def handle_url (s : BotState) (now today : Time) (user_id chat_id : Nat)
    (freepik_url : String) (message_id : Nat) : AdmissionResult × BotState :=
  let subscription := MockDatabase.get_active_subscription s.db now user_id "freepik"
  let cd := MockDatabase.can_download s.db now today user_id "freepik"
  let s1 : BotState := { s with db := cd.2 }
  if subscription.isNone then (.noSubscription, s1)
  else if !cd.1 then (.quotaExceeded, s1)
  else if (lookup_active s1 user_id).isSome then (.alreadyRunning, s1)
  else if s1.download_queue.any (fun j => j.user_id == user_id) then
    (.alreadyQueued, s1)
  else if queue_full s1 then (.queueFull, s1)
  else
    let job : Job :=
      { user_id := user_id, chat_id := chat_id, resource_url := freepik_url
        message_id := message_id, license_only := false }
    let s2 : BotState := { s1 with download_queue := s1.download_queue ++ [job] }
    let inc := MockDatabase.increment_download_count s2.db now today user_id "freepik"
    (.accepted s2.download_queue.length, { s2 with db := inc.2 })

/-- The outcomes of the `LICENSE_YES` branch of
`handle_license_confirmation` (telegram_bot.py:1483-1524). -/
inductive LicenseResult where
  | accepted
  | queueFull
  | missingUrl
deriving DecidableEq, Repr

/-- The enqueue performed by `handle_license_confirmation`
(telegram_bot.py:1494-1524): if a `last_download_url` is available, put a
5-tuple with the license-only flag, rejecting only on `queue.Full`; no
subscription, quota, active-download or already-queued check is made and
the store is never touched. -/
def handle_license_confirmation (s : BotState) (user_id chat_id : Nat)
    (last_download_url : String) (message_id : Nat) :
    LicenseResult × BotState :=
  if last_download_url ≠ "" then
    if queue_full s then (.queueFull, s)
    else
      let job : Job :=
        { user_id := user_id, chat_id := chat_id
          resource_url := last_download_url
          message_id := message_id, license_only := true }
      (.accepted, { s with download_queue := s.download_queue ++ [job] })
  else (.missingUrl, s)

/-- The initial `active_downloads` phase written right after the dequeue
(main.py:144-149). -/
def initial_phase (job : Job) : String :=
  if job.license_only then "Downloading license..." else "Starting download..."

/-- The dequeue step of `process_download_queue` (main.py:130-149): on a
non-empty queue, pop the front job and create its `active_downloads`
entry. -/
def dequeue_job (s : BotState) : Option (Job × BotState) :=
  match s.download_queue with
  | [] => none
  | job :: rest =>
    some (job, { s with
      download_queue := rest
      active_downloads := set_active s.active_downloads job.user_id (initial_phase job) })

/-- The ways one dequeued job can end (main.py:159-301): both login
attempts fail; `download_resource` fails (full jobs only); the job runs to
delivery (`file_name`/`file_size` of the obtained resource, recorded for
full jobs — partial success included); or an exception is raised anywhere
and caught at the job boundary. -/
inductive JobOutcome where
  | loginFailed
  | resourceFailed
  | delivered (file_name : String) (file_size : Nat)
  | exceptionRaised
deriving DecidableEq, Repr

/-- The processing of one dequeued job in `process_download_queue`
(main.py:159-301), collapsed over its exit paths.  The store is touched
only by `record_download` on a delivered full job; every path ends in the
`finally` block (main.py:288-301) which deletes the user's
`active_downloads` entry. -/
def run_job (s : BotState) (job : Job) (outcome : JobOutcome) : BotState :=
  let db' :=
    match outcome with
    | .delivered file_name file_size =>
      if job.license_only then s.db
      else (MockDatabase.record_download s.db job.user_id "freepik"
              job.resource_url file_name file_size).2
    | _ => s.db
  { s with db := db', active_downloads := del_active s.active_downloads job.user_id }

/-- One full iteration of the worker over a non-empty queue: dequeue, then
process to the given outcome. -/
def worker_step (s : BotState) (outcome : JobOutcome) : BotState :=
  match dequeue_job s with
  | none => s
  | some jr => run_job jr.2 jr.1 outcome

/-- The count field of today's quota record for a user, 0 when no record
exists yet. -/
def quota_count (db : Store) (today : Time) (user_id : Nat) (service : String) : Nat :=
  match db.download_limits.find? (MockDatabase.limit_key_matches user_id service today) with
  | some r => r.count
  | none => 0

/-- No two queue entries share a user id. -/
def queue_nodup_users (s : BotState) : Prop :=
  s.download_queue.Pairwise (fun a b => a.user_id ≠ b.user_id)

/-! ### Concrete example data used by witnesses and counterexamples. -/

/-- A store with no documents at all. -/
def emptyStore : Store :=
  { subscriptions := [], payments := [], download_limits := []
    subscription_plans := [], downloads := [] }

/-- The default freepik monthly plan seeded by both database variants. -/
def monthlyPlan : SubscriptionPlan :=
  { service := "freepik", plan_id := "monthly", duration_days := 30
    download_limit := 10, is_active := true }

/-- An already-active monthly subscription of user 1. -/
def activeSub : Subscription :=
  { sid := 1, user_id := 1, service := "freepik", plan := "monthly"
    start_date := 0, end_date := 100, status := "active", payment_id := none
    activated_at := some 0, last_status_update := 0
    status_history := [⟨"pending", 0, "Subscription created, awaiting payment verification"⟩,
                       ⟨"active", 0, "Subscription activated"⟩] }

/-- Entitlement store holding the plan and user 1's active subscription. -/
def subscribedStore : Store :=
  { emptyStore with subscriptions := [activeSub], subscription_plans := [monthlyPlan] }

/-- Same user and service, also active and unexpired, but with a later end
date, stored after `activeSub`. -/
def laterSub : Subscription := { activeSub with sid := 2, end_date := 200 }

/-- Store with two simultaneously qualifying active subscriptions. -/
def twoActiveStore : Store := { emptyStore with subscriptions := [activeSub, laterSub] }

/-- An approved (terminal-status) payment. -/
def approvedPayment : Payment :=
  { pid := 1, user_id := 1, status := "approved", admin_notes := ""
    status_history := [⟨"pending", 0, "Payment proof received"⟩,
                       ⟨"approved", 1, "Status changed to approved"⟩] }

/-- Store holding only `approvedPayment`. -/
def approvedPayStore : Store := { emptyStore with payments := [approvedPayment] }

/-- Store whose quota record for user 1 sits one below its limit. -/
def almostFullStore : Store :=
  { emptyStore with download_limits := [⟨1, "freepik", 0, 9, 10⟩] }

/-- Store whose quota record for user 1 sits exactly at its limit. -/
def fullQuotaStore : Store :=
  { emptyStore with download_limits := [⟨1, "freepik", 0, 10, 10⟩] }

/-- A queued full job of user 1. -/
def queuedJob : Job :=
  { user_id := 1, chat_id := 2, resource_url := "u1", message_id := 3
    license_only := false }

/-- Bot state with user 1's full job already queued. -/
def queuedState : BotState :=
  { db := subscribedStore, active_downloads := [], download_queue := [queuedJob]
    max_queue_size := 10 }

/-- Bot state with an ActiveDownloads entry for user 1, and admission
otherwise possible. -/
def runningState : BotState :=
  { db := subscribedStore, active_downloads := [(1, "Starting download...")]
    download_queue := [], max_queue_size := 10 }

/-- Bot state where admission of user 1 succeeds. -/
def idleState : BotState :=
  { db := subscribedStore, active_downloads := [], download_queue := []
    max_queue_size := 10 }

/-- Bot state with an empty store: user 1 has no subscription. -/
def noSubState : BotState :=
  { db := emptyStore, active_downloads := [], download_queue := []
    max_queue_size := 10 }

/-- The state reached by dequeuing `queuedState`. -/
def dequeuedState : BotState :=
  { db := subscribedStore, active_downloads := [(1, "Starting download...")]
    download_queue := [], max_queue_size := 10 }

/-! ### Helper lemmas

First, the `_real_*` path agrees with the mock path wherever both are
embedded over the same store shape. -/

lemma real_get_active_subscription_eq (db : Store) (now : Time) (u : Nat) (sv : String) :
    Database.real_get_active_subscription db now u sv
      = MockDatabase.get_active_subscription db now u sv := rfl

lemma real_get_subscription_plan_eq (db : Store) (sv pid : String) :
    Database.real_get_subscription_plan db sv pid
      = MockDatabase.get_subscription_plan db sv pid := rfl

lemma real_create_subscription_eq (db : Store) (now : Time) (u : Nat)
    (sv plan : String) (pay : Option Nat) :
    Database.real_create_subscription db now u sv plan pay
      = MockDatabase.create_subscription db now u sv plan pay := rfl

lemma real_get_download_limit_eq (db : Store) (now today : Time) (u : Nat) (sv : String) :
    Database.real_get_download_limit db now today u sv
      = MockDatabase.get_download_limit db now today u sv := rfl

lemma real_can_download_eq (db : Store) (now today : Time) (u : Nat) (sv : String) :
    Database.real_can_download db now today u sv
      = MockDatabase.can_download db now today u sv := rfl

lemma real_activate_in_subs_eq (subs : List Subscription) (now : Time) (sid : Nat) :
    Database.real_activate_in_subs subs now sid
      = MockDatabase.activate_in_list subs now sid := by
  induction subs with
  | nil => rfl
  | cons a rest ih =>
    simp only [Database.real_activate_in_subs, MockDatabase.activate_in_list, ih]

lemma real_activate_subscription_eq (db : Store) (now : Time) (sid : Nat) :
    Database.real_activate_subscription db now sid
      = MockDatabase.activate_subscription db now sid := by
  simp only [Database.real_activate_subscription, MockDatabase.activate_subscription,
    real_activate_in_subs_eq]

lemma real_update_in_payments_eq (ps : List Payment) (now : Time) (pid : Nat)
    (status : String) (notes : Option String) :
    Database.real_update_in_payments ps now pid status notes
      = MockDatabase.update_in_payments ps now pid status notes := by
  induction ps with
  | nil => rfl
  | cons a rest ih =>
    simp only [Database.real_update_in_payments, MockDatabase.update_in_payments, ih]

lemma real_update_payment_status_eq (db : Store) (now : Time) (pid : Nat)
    (status : String) (notes : Option String) :
    Database.real_update_payment_status db now pid status notes
      = MockDatabase.update_payment_status db now pid status notes := by
  simp only [Database.real_update_payment_status, MockDatabase.update_payment_status,
    real_update_in_payments_eq]

/-! Quota bookkeeping lemmas. -/

lemma limit_key_matches_self (u : Nat) (sv : String) (t : Time) (c lim : Nat) :
    MockDatabase.limit_key_matches u sv t
      { user_id := u, service := sv, date := t, count := c, limit := lim } = true := by
  simp [MockDatabase.limit_key_matches]

lemma limit_key_matches_count (u : Nat) (sv : String) (t : Time)
    (r : LimitRecord) (c : Nat) :
    MockDatabase.limit_key_matches u sv t { r with count := c }
      = MockDatabase.limit_key_matches u sv t r := rfl

lemma get_download_limit_count (db : Store) (now today : Time) (u : Nat) (sv : String) :
    (MockDatabase.get_download_limit db now today u sv).1.count
      = quota_count db today u sv := by
  unfold MockDatabase.get_download_limit quota_count
  cases h : db.download_limits.find? (MockDatabase.limit_key_matches u sv today) <;>
    simp [h]

lemma get_download_limit_find (db : Store) (now today : Time) (u : Nat) (sv : String) :
    (MockDatabase.get_download_limit db now today u sv).2.download_limits.find?
        (MockDatabase.limit_key_matches u sv today)
      = some (MockDatabase.get_download_limit db now today u sv).1 := by
  unfold MockDatabase.get_download_limit
  cases h : db.download_limits.find? (MockDatabase.limit_key_matches u sv today) with
  | some r => simp [h]
  | none => simp [h, List.find?_append, limit_key_matches_self]

lemma get_download_limit_quota (db : Store) (now today : Time) (u : Nat) (sv : String) :
    quota_count (MockDatabase.get_download_limit db now today u sv).2 today u sv
      = quota_count db today u sv := by
  have h1 := get_download_limit_find db now today u sv
  have h2 := get_download_limit_count db now today u sv
  unfold quota_count
  rw [h1]
  exact h2

lemma can_download_quota (db : Store) (now today : Time) (u : Nat) (sv : String) :
    quota_count (MockDatabase.can_download db now today u sv).2 today u sv
      = quota_count db today u sv := by
  unfold MockDatabase.can_download
  exact get_download_limit_quota db now today u sv

lemma increment_in_limits_find (l : List LimitRecord) (u : Nat) (sv : String)
    (t : Time) (r : LimitRecord)
    (h : l.find? (MockDatabase.limit_key_matches u sv t) = some r) :
    (MockDatabase.increment_in_limits l u sv t).find?
        (MockDatabase.limit_key_matches u sv t)
      = some { r with count := r.count + 1 } := by
  induction l with
  | nil => simp at h
  | cons a rest ih =>
    by_cases ha : MockDatabase.limit_key_matches u sv t a
    · rw [List.find?_cons_of_pos _ ha] at h
      cases h
      unfold MockDatabase.increment_in_limits
      rw [if_pos ha]
      exact List.find?_cons_of_pos _ (by rw [limit_key_matches_count]; exact ha)
    · rw [List.find?_cons_of_neg _ ha] at h
      unfold MockDatabase.increment_in_limits
      rw [if_neg ha]
      rw [List.find?_cons_of_neg _ ha]
      exact ih h

lemma increment_download_count_quota (db : Store) (now today : Time)
    (u : Nat) (sv : String) :
    quota_count (MockDatabase.increment_download_count db now today u sv).2 today u sv
      = quota_count db today u sv + 1 := by
  have h1 := get_download_limit_find db now today u sv
  have h2 := get_download_limit_count db now today u sv
  unfold MockDatabase.increment_download_count quota_count
  rw [increment_in_limits_find _ u sv today _ h1]
  simpa using h2

/-! Active-downloads map lemmas. -/

lemma find?_del_active (a : List (Nat × String)) (u : Nat) :
    (del_active a u).find? (fun p => p.1 == u) = none := by
  rw [List.find?_eq_none]
  intro x hx
  have hx2 := (List.mem_filter.mp hx).2
  simp only [bne_iff_ne, ne_eq] at hx2
  simp [hx2]

lemma find?_map_replace (a : List (Nat × String)) (u : Nat) (ph : String)
    (hmem : a.any (fun p => p.1 == u) = true) :
    ((a.map (fun p => if p.1 == u then (p.1, ph) else p)).find?
        (fun p => p.1 == u)).map Prod.snd = some ph := by
  induction a with
  | nil => simp at hmem
  | cons p rest ih =>
    by_cases hp : p.1 = u
    · rw [List.map_cons, if_pos (by simpa using hp)]
      rw [List.find?_cons_of_pos _ (by simpa using hp)]
      rfl
    · have hmem' : rest.any (fun q => q.1 == u) = true := by
        rcases List.any_eq_true.mp hmem with ⟨x, hx, hxu⟩
        rcases List.mem_cons.mp hx with rfl | hx'
        · exact absurd (by simpa using hxu) hp
        · exact List.any_eq_true.mpr ⟨x, hx', hxu⟩
      rw [List.map_cons, if_neg (by simpa using hp)]
      rw [List.find?_cons_of_neg _ (by simpa using hp)]
      exact ih hmem'

/-! First-match decomposition of the activation and payment-update loops. -/

lemma activate_in_list_found (subs : List Subscription) (now : Time) (sid : Nat)
    (h : ∃ sub ∈ subs, sub.sid = sid) :
    ∃ l1 sub l2, subs = l1 ++ sub :: l2 ∧ sub.sid = sid ∧
      MockDatabase.activate_in_list subs now sid
        = (true, l1 ++ MockDatabase.apply_activation sub now :: l2) := by
  induction subs with
  | nil => simp at h
  | cons a rest ih =>
    by_cases ha : a.sid = sid
    · exact ⟨[], a, rest, rfl, ha,
        by unfold MockDatabase.activate_in_list; rw [if_pos (by simpa using ha)]; rfl⟩
    · have h' : ∃ sub ∈ rest, sub.sid = sid := by
        rcases h with ⟨sub, hmem, hsid⟩
        rcases List.mem_cons.mp hmem with rfl | hmem'
        · exact absurd hsid ha
        · exact ⟨sub, hmem', hsid⟩
      rcases ih h' with ⟨l1, sub, l2, heq, hsid, hact⟩
      refine ⟨a :: l1, sub, l2, by rw [heq]; rfl, hsid, ?_⟩
      unfold MockDatabase.activate_in_list
      rw [if_neg (by simpa using ha), hact]
      rfl

lemma activate_in_list_not_found (subs : List Subscription) (now : Time) (sid : Nat)
    (h : ∀ sub ∈ subs, sub.sid ≠ sid) :
    MockDatabase.activate_in_list subs now sid = (false, subs) := by
  induction subs with
  | nil => rfl
  | cons a rest ih =>
    unfold MockDatabase.activate_in_list
    rw [if_neg (by simpa using h a (List.mem_cons_self a rest))]
    rw [ih (fun sub hs => h sub (List.mem_cons_of_mem a hs))]

lemma update_in_payments_found (ps : List Payment) (now : Time) (pid : Nat)
    (status : String) (notes : Option String)
    (h : ∃ p ∈ ps, p.pid = pid) :
    ∃ l1 p l2, ps = l1 ++ p :: l2 ∧ p.pid = pid ∧
      MockDatabase.update_in_payments ps now pid status notes
        = (true, l1 ++ MockDatabase.apply_payment_update p now status notes :: l2) := by
  induction ps with
  | nil => simp at h
  | cons a rest ih =>
    by_cases ha : a.pid = pid
    · exact ⟨[], a, rest, rfl, ha,
        by unfold MockDatabase.update_in_payments; rw [if_pos (by simpa using ha)]; rfl⟩
    · have h' : ∃ p ∈ rest, p.pid = pid := by
        rcases h with ⟨p, hmem, hpid⟩
        rcases List.mem_cons.mp hmem with rfl | hmem'
        · exact absurd hpid ha
        · exact ⟨p, hmem', hpid⟩
      rcases ih h' with ⟨l1, p, l2, heq, hpid, hupd⟩
      refine ⟨a :: l1, p, l2, by rw [heq]; rfl, hpid, ?_⟩
      unfold MockDatabase.update_in_payments
      rw [if_neg (by simpa using ha), hupd]
      rfl

lemma update_in_payments_not_found (ps : List Payment) (now : Time) (pid : Nat)
    (status : String) (notes : Option String)
    (h : ∀ p ∈ ps, p.pid ≠ pid) :
    MockDatabase.update_in_payments ps now pid status notes = (false, ps) := by
  induction ps with
  | nil => rfl
  | cons a rest ih =>
    unfold MockDatabase.update_in_payments
    rw [if_neg (by simpa using h a (List.mem_cons_self a rest))]
    rw [ih (fun p hs => h p (List.mem_cons_of_mem a hs))]

/-! Case analysis of the admission path: `handle_url` either accepts —
appending the user's full job after having seen no queued entry for the
user — or rejects with the store only touched by the lazy quota-record
creation of `can_download`. -/

lemma handle_url_cases (s : BotState) (now today : Time) (u chat mid : Nat)
    (url : String) :
    ((∃ pos, (handle_url s now today u chat url mid).1 = .accepted pos)
      ∧ (handle_url s now today u chat url mid).2
          = { s with
                db := (MockDatabase.increment_download_count
                        (MockDatabase.can_download s.db now today u "freepik").2
                        now today u "freepik").2
                download_queue := s.download_queue
                  ++ [⟨u, chat, url, mid, false⟩] }
      ∧ s.download_queue.any (fun j => j.user_id == u) = false)
    ∨ ((∀ pos, (handle_url s now today u chat url mid).1 ≠ .accepted pos)
      ∧ (handle_url s now today u chat url mid).2
          = { s with db := (MockDatabase.can_download s.db now today u "freepik").2 }) := by
  unfold handle_url
  by_cases h1 : (MockDatabase.get_active_subscription s.db now u "freepik").isNone = true
  · right
    rw [if_pos h1]
    exact ⟨fun pos => by simp, rfl⟩
  · rw [if_neg h1]
    by_cases h2 : (!(MockDatabase.can_download s.db now today u "freepik").1) = true
    · right
      rw [if_pos h2]
      exact ⟨fun pos => by simp, rfl⟩
    · rw [if_neg h2]
      by_cases h3 : (lookup_active { s with
          db := (MockDatabase.can_download s.db now today u "freepik").2 } u).isSome = true
      · right
        rw [if_pos h3]
        exact ⟨fun pos => by simp, rfl⟩
      · rw [if_neg h3]
        by_cases h4 : s.download_queue.any (fun j => j.user_id == u) = true
        · right
          rw [if_pos h4]
          exact ⟨fun pos => by simp, rfl⟩
        · rw [if_neg h4]
          by_cases h5 : queue_full { s with
              db := (MockDatabase.can_download s.db now today u "freepik").2 } = true
          · right
            rw [if_pos h5]
            exact ⟨fun pos => by simp, rfl⟩
          · left
            rw [if_neg h5]
            exact ⟨⟨_, rfl⟩, rfl, Bool.eq_false_iff.mpr h4⟩

lemma worker_step_db (s : BotState) (outcome : JobOutcome) :
    (worker_step s outcome).db.download_limits = s.db.download_limits := by
  unfold worker_step dequeue_job run_job
  cases s.download_queue with
  | nil => rfl
  | cons j rest =>
    cases outcome with
    | delivered fn fs =>
      by_cases hl : j.license_only <;>
        simp [hl, MockDatabase.record_download]
    | loginFailed => rfl
    | resourceFailed => rfl
    | exceptionRaised => rfl

lemma find?_set_active (a : List (Nat × String)) (u : Nat) (ph : String) :
    ((set_active a u ph).find? (fun p => p.1 == u)).map Prod.snd = some ph := by
  unfold set_active
  by_cases hmem : a.any (fun p => p.1 == u) = true
  · rw [if_pos hmem]
    exact find?_map_replace a u ph hmem
  · rw [if_neg hmem]
    have hfalse : a.any (fun p => p.1 == u) = false :=
      Bool.eq_false_iff.mpr hmem
    rw [List.find?_append,
      List.find?_eq_none.mpr (fun x hx => by
        simpa using List.any_eq_false.mp hfalse x hx)]
    simp

/-! ### Claim theorems -/

/-- C3: for a user without an active subscription, `handle_url` returns
NoSubscription, adds nothing to the download queue, and leaves the user's
daily quota count unchanged (only `can_download`'s lazy creation of a
zero-count record touches the store). -/
theorem handle_url_no_subscription (s : BotState) (now today : Time)
    (u chat : Nat) (url : String) (mid : Nat)
    (h : MockDatabase.get_active_subscription s.db now u "freepik" = none) :
    (handle_url s now today u chat url mid).1 = .noSubscription
    ∧ (handle_url s now today u chat url mid).2.download_queue = s.download_queue
    ∧ quota_count (handle_url s now today u chat url mid).2.db today u "freepik"
        = quota_count s.db today u "freepik" := by
  have hnone : (MockDatabase.get_active_subscription s.db now u "freepik").isNone = true := by
    rw [h]; rfl
  unfold handle_url
  rw [if_pos hnone]
  exact ⟨rfl, rfl, can_download_quota s.db now today u "freepik"⟩

/-- C3 witness: user 1 over the empty store. -/
theorem handle_url_no_subscription_witness :
    (handle_url noSubState 50 50 1 2 "u1" 3).1 = AdmissionResult.noSubscription :=
  (handle_url_no_subscription noSubState 50 50 1 2 "u1" 3 rfl).1

/-- C4: `can_download` holds exactly when the current quota record's count
is strictly below its limit, with the boundary cases count = limit - 1
(true) and count = limit (false), on both the mock path and the real store
path. -/
theorem can_download_iff_count_lt_limit (db : Store) (now today : Time)
    (u : Nat) (sv : String) :
    ((MockDatabase.can_download db now today u sv).1 = true ↔
      (MockDatabase.get_download_limit db now today u sv).1.count
        < (MockDatabase.get_download_limit db now today u sv).1.limit)
    ∧ ((MockDatabase.get_download_limit db now today u sv).1.count + 1
          = (MockDatabase.get_download_limit db now today u sv).1.limit →
        (MockDatabase.can_download db now today u sv).1 = true)
    ∧ ((MockDatabase.get_download_limit db now today u sv).1.count
          = (MockDatabase.get_download_limit db now today u sv).1.limit →
        (MockDatabase.can_download db now today u sv).1 = false)
    ∧ ((Database.real_can_download db now today u sv).1 = true ↔
      (Database.real_get_download_limit db now today u sv).1.count
        < (Database.real_get_download_limit db now today u sv).1.limit)
    ∧ ((Database.real_get_download_limit db now today u sv).1.count + 1
          = (Database.real_get_download_limit db now today u sv).1.limit →
        (Database.real_can_download db now today u sv).1 = true)
    ∧ ((Database.real_get_download_limit db now today u sv).1.count
          = (Database.real_get_download_limit db now today u sv).1.limit →
        (Database.real_can_download db now today u sv).1 = false) := by
  have k1 : (MockDatabase.can_download db now today u sv).1 = true ↔
      (MockDatabase.get_download_limit db now today u sv).1.count
        < (MockDatabase.get_download_limit db now today u sv).1.limit := by
    simp [MockDatabase.can_download]
  have k2 : (MockDatabase.get_download_limit db now today u sv).1.count + 1
        = (MockDatabase.get_download_limit db now today u sv).1.limit →
      (MockDatabase.can_download db now today u sv).1 = true := by
    intro h
    rw [k1]
    omega
  have k3 : (MockDatabase.get_download_limit db now today u sv).1.count
        = (MockDatabase.get_download_limit db now today u sv).1.limit →
      (MockDatabase.can_download db now today u sv).1 = false := by
    intro h
    simp only [Bool.eq_false_iff, ne_eq, k1]
    omega
  refine ⟨k1, k2, k3, ?_, ?_, ?_⟩
  · rw [real_can_download_eq, real_get_download_limit_eq]
    exact k1
  · rw [real_get_download_limit_eq, real_can_download_eq]
    exact k2
  · rw [real_get_download_limit_eq, real_can_download_eq]
    exact k3

/-- C4 witness: boundary instances at count 9 and count 10 with limit 10,
on both paths. -/
theorem can_download_iff_count_lt_limit_witness :
    (MockDatabase.can_download almostFullStore 0 0 1 "freepik").1 = true
    ∧ (MockDatabase.can_download fullQuotaStore 0 0 1 "freepik").1 = false
    ∧ (Database.real_can_download almostFullStore 0 0 1 "freepik").1 = true
    ∧ (Database.real_can_download fullQuotaStore 0 0 1 "freepik").1 = false :=
  ⟨(can_download_iff_count_lt_limit almostFullStore 0 0 1 "freepik").2.1 (by decide),
   (can_download_iff_count_lt_limit fullQuotaStore 0 0 1 "freepik").2.2.1 (by decide),
   (can_download_iff_count_lt_limit almostFullStore 0 0 1 "freepik").2.2.2.2.1 (by decide),
   (can_download_iff_count_lt_limit fullQuotaStore 0 0 1 "freepik").2.2.2.2.2 (by decide)⟩

/-- C5: `create_subscription` sets end_date to start_date plus the plan's
duration when an active plan record exists, falls back to 30/365 days for
the legacy "monthly"/"yearly" ids when it does not, and for any other plan
id with no plan record fails with the invalid-plan error leaving the store
unchanged — on both database paths. -/
theorem create_subscription_end_date (db : Store) (now : Time) (u : Nat)
    (sv plan : String) (pay : Option Nat) :
    (∀ p, MockDatabase.get_subscription_plan db sv plan = some p →
      ∃ sub, (MockDatabase.create_subscription db now u sv plan pay).1 = .ok sub
        ∧ sub.end_date = sub.start_date + p.duration_days)
    ∧ (MockDatabase.get_subscription_plan db sv plan = none → plan = "monthly" →
      ∃ sub, (MockDatabase.create_subscription db now u sv plan pay).1 = .ok sub
        ∧ sub.end_date = sub.start_date + 30)
    ∧ (MockDatabase.get_subscription_plan db sv plan = none → plan = "yearly" →
      ∃ sub, (MockDatabase.create_subscription db now u sv plan pay).1 = .ok sub
        ∧ sub.end_date = sub.start_date + 365)
    ∧ (MockDatabase.get_subscription_plan db sv plan = none →
        plan ≠ "monthly" → plan ≠ "yearly" →
      (MockDatabase.create_subscription db now u sv plan pay).1
          = .error ("Invalid plan: " ++ plan)
        ∧ (MockDatabase.create_subscription db now u sv plan pay).2 = db)
    ∧ Database.real_create_subscription db now u sv plan pay
        = MockDatabase.create_subscription db now u sv plan pay := by
  refine ⟨?_, ?_, ?_, ?_, real_create_subscription_eq db now u sv plan pay⟩
  · intro p hp
    unfold MockDatabase.create_subscription
    rw [hp]
    exact ⟨_, rfl, rfl⟩
  · intro hp hm
    subst hm
    unfold MockDatabase.create_subscription
    rw [hp]
    exact ⟨_, rfl, rfl⟩
  · intro hp hy
    subst hy
    unfold MockDatabase.create_subscription
    rw [hp]
    exact ⟨_, rfl, rfl⟩
  · intro hp hm hy
    unfold MockDatabase.create_subscription
    rw [hp, if_neg (by simpa using hm), if_neg (by simpa using hy)]
    exact ⟨rfl, rfl⟩

/-- C5 witness: plan-based, legacy and invalid branches at concrete
inputs. -/
theorem create_subscription_end_date_witness :
    (∃ sub, (MockDatabase.create_subscription subscribedStore 0 1 "freepik" "monthly" none).1
        = .ok sub ∧ sub.end_date = sub.start_date + monthlyPlan.duration_days)
    ∧ (∃ sub, (MockDatabase.create_subscription emptyStore 0 1 "freepik" "yearly" none).1
        = .ok sub ∧ sub.end_date = sub.start_date + 365)
    ∧ (MockDatabase.create_subscription emptyStore 0 1 "freepik" "weekly" none).1
        = .error ("Invalid plan: " ++ "weekly")
    ∧ (MockDatabase.create_subscription emptyStore 0 1 "freepik" "weekly" none).2
        = emptyStore :=
  ⟨(create_subscription_end_date subscribedStore 0 1 "freepik" "monthly" none).1
      monthlyPlan (by decide),
   (create_subscription_end_date emptyStore 0 1 "freepik" "yearly" none).2.2.1
      (by decide) rfl,
   ((create_subscription_end_date emptyStore 0 1 "freepik" "weekly" none).2.2.2.1
      (by decide) (by decide) (by decide)).1,
   ((create_subscription_end_date emptyStore 0 1 "freepik" "weekly" none).2.2.2.1
      (by decide) (by decide) (by decide)).2⟩

/-- C6 (amended): `get_active_subscription` returns only a subscription of
the queried user and service with status "active" and end_date strictly
after now, and returns none when no stored subscription qualifies — on
both paths; but when several qualify it returns the first one in storage
order, which need not have the furthest end date. -/
theorem get_active_subscription_live (db : Store) (now : Time) (u : Nat)
    (sv : String) (sub : Subscription) :
    (MockDatabase.get_active_subscription db now u sv = some sub →
      sub.user_id = u ∧ sub.service = sv ∧ sub.status = "active" ∧ now < sub.end_date)
    ∧ ((∀ x ∈ db.subscriptions,
          ¬(x.user_id = u ∧ x.service = sv ∧ x.status = "active" ∧ now < x.end_date)) →
        MockDatabase.get_active_subscription db now u sv = none)
    ∧ Database.real_get_active_subscription db now u sv
        = MockDatabase.get_active_subscription db now u sv := by
  refine ⟨?_, ?_, rfl⟩
  · intro h
    have hp := List.find?_some h
    simp only [Bool.and_eq_true, beq_iff_eq, decide_eq_true_eq] at hp
    exact ⟨hp.1.1.1, hp.1.1.2, hp.2, hp.1.2⟩
  · intro hall
    unfold MockDatabase.get_active_subscription
    rw [List.find?_eq_none]
    intro x hx
    have hnx := hall x hx
    simp only [Bool.and_eq_true, beq_iff_eq, decide_eq_true_eq]
    intro hcontra
    exact hnx ⟨hcontra.1.1.1, hcontra.1.1.2, hcontra.2, hcontra.1.2⟩

/-- C6 witness: the returned subscription of user 1 satisfies all four
filter conditions. -/
theorem get_active_subscription_live_witness :
    activeSub.user_id = 1 ∧ activeSub.service = "freepik"
    ∧ activeSub.status = "active" ∧ 50 < activeSub.end_date :=
  (get_active_subscription_live subscribedStore 50 1 "freepik" activeSub).1 (by decide)

/-- C6 counterexample: with two simultaneously qualifying subscriptions,
both paths return the first stored one although the second has the
further end date — refuting the furthest-end-date selection rule. -/
theorem get_active_subscription_not_furthest :
    MockDatabase.get_active_subscription twoActiveStore 5 1 "freepik" = some activeSub
    ∧ Database.real_get_active_subscription twoActiveStore 5 1 "freepik" = some activeSub
    ∧ laterSub ∈ twoActiveStore.subscriptions
    ∧ laterSub.user_id = 1 ∧ laterSub.service = "freepik"
    ∧ laterSub.status = "active" ∧ 5 < laterSub.end_date
    ∧ activeSub.end_date < laterSub.end_date := by
  refine ⟨by decide, by decide, by decide, by decide, by decide, by decide, by decide, by decide⟩

/-- C7: activating an existing subscription — whatever its current status,
including "active" — returns true and appends an "active" history entry to
exactly that subscription; an id matching no subscription returns false
and leaves the store (hence every history list) unchanged — on both
paths. -/
theorem activate_subscription_spec (db : Store) (now : Time) (sid : Nat) :
    ((∃ sub ∈ db.subscriptions, sub.sid = sid) →
      (MockDatabase.activate_subscription db now sid).1 = true
      ∧ ∃ l1 sub l2, db.subscriptions = l1 ++ sub :: l2 ∧ sub.sid = sid
          ∧ (MockDatabase.activate_subscription db now sid).2.subscriptions
              = l1 ++ MockDatabase.apply_activation sub now :: l2)
    ∧ (∀ sub : Subscription, (MockDatabase.apply_activation sub now).status_history
        = sub.status_history ++ [⟨"active", now, "Subscription activated"⟩])
    ∧ ((∀ sub ∈ db.subscriptions, sub.sid ≠ sid) →
      (MockDatabase.activate_subscription db now sid).1 = false
      ∧ (MockDatabase.activate_subscription db now sid).2 = db)
    ∧ Database.real_activate_subscription db now sid
        = MockDatabase.activate_subscription db now sid := by
  refine ⟨?_, fun sub => rfl, ?_, real_activate_subscription_eq db now sid⟩
  · intro h
    rcases activate_in_list_found db.subscriptions now sid h with
      ⟨l1, sub, l2, heq, hsid, hact⟩
    refine ⟨?_, l1, sub, l2, heq, hsid, ?_⟩
    · unfold MockDatabase.activate_subscription
      rw [hact]
    · unfold MockDatabase.activate_subscription
      rw [hact]
  · intro h
    unfold MockDatabase.activate_subscription
    rw [activate_in_list_not_found db.subscriptions now sid h]
    exact ⟨rfl, rfl⟩

/-- C7 witness: re-activating the already-active subscription 1 succeeds;
the absent id 99 fails with the store unchanged. -/
theorem activate_subscription_spec_witness :
    (MockDatabase.activate_subscription subscribedStore 7 1).1 = true
    ∧ (MockDatabase.activate_subscription subscribedStore 7 99).1 = false
    ∧ (MockDatabase.activate_subscription subscribedStore 7 99).2 = subscribedStore :=
  ⟨((activate_subscription_spec subscribedStore 7 1).1 ⟨activeSub, by decide, rfl⟩).1,
   ((activate_subscription_spec subscribedStore 7 99).2.2.1 (by decide)).1,
   ((activate_subscription_spec subscribedStore 7 99).2.2.1 (by decide)).2⟩

/-- C9 (amended): `update_payment_status` on an existing payment returns
true, appends a history entry for the new status, sets `admin_notes` only
when a non-empty note is provided, and overwrites the previous status
unconditionally — including a terminal one without a note, contrary to the
claim's non-overwrite clause (see the counterexample); on a non-existent
id it returns false and leaves the store unchanged — on both paths. -/
theorem update_payment_status_spec (db : Store) (now : Time) (pid : Nat)
    (status : String) (notes : Option String) :
    ((∃ p ∈ db.payments, p.pid = pid) →
      (MockDatabase.update_payment_status db now pid status notes).1 = true
      ∧ ∃ l1 p l2, db.payments = l1 ++ p :: l2 ∧ p.pid = pid
          ∧ (MockDatabase.update_payment_status db now pid status notes).2.payments
              = l1 ++ MockDatabase.apply_payment_update p now status notes :: l2)
    ∧ (∀ p : Payment,
        (MockDatabase.apply_payment_update p now status notes).status = status
        ∧ (MockDatabase.apply_payment_update p now status notes).status_history
            = p.status_history ++ [⟨status, now, MockDatabase.status_note status notes⟩]
        ∧ (MockDatabase.note_provided notes = false →
            (MockDatabase.apply_payment_update p now status notes).admin_notes
              = p.admin_notes)
        ∧ (∀ t, notes = some t → t ≠ "" →
            (MockDatabase.apply_payment_update p now status notes).admin_notes = t))
    ∧ ((∀ p ∈ db.payments, p.pid ≠ pid) →
      (MockDatabase.update_payment_status db now pid status notes).1 = false
      ∧ (MockDatabase.update_payment_status db now pid status notes).2 = db)
    ∧ Database.real_update_payment_status db now pid status notes
        = MockDatabase.update_payment_status db now pid status notes := by
  refine ⟨?_, ?_, ?_, real_update_payment_status_eq db now pid status notes⟩
  · intro h
    rcases update_in_payments_found db.payments now pid status notes h with
      ⟨l1, p, l2, heq, hpid, hupd⟩
    refine ⟨?_, l1, p, l2, heq, hpid, ?_⟩
    · unfold MockDatabase.update_payment_status
      rw [hupd]
    · unfold MockDatabase.update_payment_status
      rw [hupd]
  · intro p
    refine ⟨rfl, rfl, ?_, ?_⟩
    · intro h
      unfold MockDatabase.apply_payment_update
      rw [h]
      rfl
    · intro t ht hne
      subst ht
      unfold MockDatabase.apply_payment_update
      rw [if_pos (by simp [MockDatabase.note_provided, hne])]
      rfl
  · intro h
    unfold MockDatabase.update_payment_status
    rw [update_in_payments_not_found db.payments now pid status notes h]
    exact ⟨rfl, rfl⟩

/-- C9 witness: updating the existing payment 1 with a note succeeds and
stores the note; the absent id 5 fails with the store unchanged. -/
theorem update_payment_status_spec_witness :
    (MockDatabase.update_payment_status approvedPayStore 7 1 "rejected" (some "dup")).1 = true
    ∧ (MockDatabase.update_payment_status approvedPayStore 7 5 "approved" none).1 = false
    ∧ (MockDatabase.update_payment_status approvedPayStore 7 5 "approved" none).2
        = approvedPayStore
    ∧ (MockDatabase.apply_payment_update approvedPayment 7 "rejected" (some "dup")).admin_notes
        = "dup" :=
  ⟨((update_payment_status_spec approvedPayStore 7 1 "rejected" (some "dup")).1
      ⟨approvedPayment, by decide, rfl⟩).1,
   ((update_payment_status_spec approvedPayStore 7 5 "approved" none).2.2.1 (by decide)).1,
   ((update_payment_status_spec approvedPayStore 7 5 "approved" none).2.2.1 (by decide)).2,
   ((update_payment_status_spec approvedPayStore 7 1 "rejected" (some "dup")).2.1
      approvedPayment).2.2.2 "dup" rfl (by decide)⟩

/-- C9 counterexample: with no note provided, both paths overwrite the
terminal "approved" status of payment 1 with "pending" and report
success — refuting the claim's terminal-status protection. -/
theorem update_payment_status_overwrites_terminal :
    approvedPayment.status = "approved"
    ∧ (MockDatabase.update_payment_status approvedPayStore 7 1 "pending" none).1 = true
    ∧ (MockDatabase.update_payment_status approvedPayStore 7 1 "pending" none).2.payments.map
        Payment.status = ["pending"]
    ∧ (Database.real_update_payment_status approvedPayStore 7 1 "pending" none).2.payments.map
        Payment.status = ["pending"] := by
  refine ⟨by decide, by decide, by decide, by decide⟩

/-- C1 (amended): once the subscription and quota checks that `handle_url`
runs first have passed, a full-job enqueue is rejected AlreadyRunning when
the user has an ActiveDownloads entry and AlreadyQueued when a queued
entry for the user exists, and full-job enqueues preserve the queue's
no-duplicate-user invariant; the license-only enqueue performs no such
check and can duplicate a user's entry (see the counterexample). -/
theorem handle_url_double_submission (s : BotState) (now today : Time)
    (u chat : Nat) (url : String) (mid : Nat)
    (hsub : (MockDatabase.get_active_subscription s.db now u "freepik").isSome = true)
    (hq : (MockDatabase.can_download s.db now today u "freepik").1 = true) :
    ((lookup_active s u).isSome = true →
      (handle_url s now today u chat url mid).1 = .alreadyRunning)
    ∧ ((lookup_active s u).isSome = false →
      s.download_queue.any (fun j => j.user_id == u) = true →
      (handle_url s now today u chat url mid).1 = .alreadyQueued)
    ∧ (queue_nodup_users s →
      queue_nodup_users (handle_url s now today u chat url mid).2) := by
  have hnone : (MockDatabase.get_active_subscription s.db now u "freepik").isNone = false := by
    rcases Option.isSome_iff_exists.mp hsub with ⟨v, hv⟩
    rw [hv]
    rfl
  have hnq : (!(MockDatabase.can_download s.db now today u "freepik").1) = false := by
    rw [hq]
    rfl
  refine ⟨?_, ?_, ?_⟩
  · intro hrun
    have hrun' : (lookup_active { s with
        db := (MockDatabase.can_download s.db now today u "freepik").2 } u).isSome = true := hrun
    unfold handle_url
    rw [if_neg (by simp [hnone]), if_neg (by simp [hnq]), if_pos hrun']
  · intro hrun hqueued
    have hrun' : (lookup_active { s with
        db := (MockDatabase.can_download s.db now today u "freepik").2 } u).isSome = false := hrun
    have hqueued' : ({ s with
        db := (MockDatabase.can_download s.db now today u "freepik").2
          }.download_queue.any fun j => j.user_id == u) = true := hqueued
    unfold handle_url
    rw [if_neg (by simp [hnone]), if_neg (by simp [hnq]),
      if_neg (by simp [hrun']), if_pos hqueued']
  · intro hnodup
    rcases handle_url_cases s now today u chat mid url with
      ⟨_, heq, hany⟩ | ⟨_, heq⟩
    · unfold queue_nodup_users at hnodup ⊢
      rw [heq]
      show (s.download_queue ++ [(⟨u, chat, url, mid, false⟩ : Job)]).Pairwise _
      rw [List.pairwise_append]
      refine ⟨hnodup, by simp, ?_⟩
      intro a ha b hb
      rcases List.mem_singleton.mp hb with rfl
      have hne := List.any_eq_false.mp hany a ha
      simpa using hne
    · unfold queue_nodup_users at hnodup ⊢
      rw [heq]
      exact hnodup

/-- C1 witness: user 1, entitled and under quota, is rejected
AlreadyRunning while their ActiveDownloads entry exists. -/
theorem handle_url_double_submission_witness :
    (handle_url runningState 50 50 1 2 "u1" 3).1 = AdmissionResult.alreadyRunning :=
  (handle_url_double_submission runningState 50 50 1 2 "u1" 3
    (by decide) (by decide)).1 (by decide)

/-- C1 counterexample: the license-only enqueue appends a second entry for
user 1 although one is already queued, so the no-duplicate-user invariant
does not hold across every enqueue operation. -/
theorem license_enqueue_breaks_nodup :
    queue_nodup_users queuedState
    ∧ (handle_license_confirmation queuedState 1 2 "u1" 4).1 = LicenseResult.accepted
    ∧ ¬ queue_nodup_users (handle_license_confirmation queuedState 1 2 "u1" 4).2 := by
  refine ⟨?_, by decide, ?_⟩
  · unfold queue_nodup_users
    decide
  · unfold queue_nodup_users
    decide

/-- C2: a successfully admitted full-job enqueue raises the user's daily
quota count by exactly one at enqueue time; a rejected enqueue leaves it
unchanged; and no exit path of the worker's processing of a job —
delivery, partial success, login failure, resource failure or an
exception — changes it again, so a job that later fails still consumes
one unit of quota. -/
theorem quota_incremented_only_at_enqueue (s : BotState) (now today : Time)
    (u chat : Nat) (url : String) (mid : Nat) (outcome : JobOutcome) :
    (∀ pos, (handle_url s now today u chat url mid).1 = .accepted pos →
      quota_count (handle_url s now today u chat url mid).2.db today u "freepik"
        = quota_count s.db today u "freepik" + 1)
    ∧ ((∀ pos, (handle_url s now today u chat url mid).1 ≠ .accepted pos) →
      quota_count (handle_url s now today u chat url mid).2.db today u "freepik"
        = quota_count s.db today u "freepik")
    ∧ quota_count (worker_step s outcome).db today u "freepik"
        = quota_count s.db today u "freepik" := by
  have hw : quota_count (worker_step s outcome).db today u "freepik"
      = quota_count s.db today u "freepik" := by
    unfold quota_count
    rw [worker_step_db]
  rcases handle_url_cases s now today u chat mid url with
    ⟨⟨pos0, hacc⟩, heq, _⟩ | ⟨hne, heq⟩
  · refine ⟨?_, ?_, hw⟩
    · intro pos _
      rw [heq]
      show quota_count (MockDatabase.increment_download_count
          (MockDatabase.can_download s.db now today u "freepik").2
          now today u "freepik").2 today u "freepik" = _
      rw [increment_download_count_quota, can_download_quota]
    · intro h
      exact absurd hacc (h pos0)
  · refine ⟨?_, ?_, hw⟩
    · intro pos h
      exact absurd h (hne pos)
    · intro _
      rw [heq]
      exact can_download_quota s.db now today u "freepik"

/-- C2 witness: admission of user 1 in the idle state raises the quota
count by one. -/
theorem quota_incremented_only_at_enqueue_witness :
    quota_count (handle_url idleState 50 50 1 2 "u1" 3).2.db 50 1 "freepik"
      = quota_count idleState.db 50 1 "freepik" + 1 :=
  (quota_incremented_only_at_enqueue idleState 50 50 1 2 "u1" 3
    JobOutcome.loginFailed).1 1 (by decide)

/-- C8: dequeuing a job creates the ActiveDownloads entry for the job's
user, and every exit path of the subsequent processing — delivery, login
failure, resource failure or exception — removes it, so absence of an
entry means the user has no running job. -/
theorem active_downloads_lifecycle (s : BotState) (job : Job) (s1 : BotState)
    (outcome : JobOutcome)
    (h : dequeue_job s = some (job, s1)) :
    (lookup_active s1 job.user_id).isSome = true
    ∧ lookup_active (run_job s1 job outcome) job.user_id = none := by
  cases hq : s.download_queue with
  | nil =>
    unfold dequeue_job at h
    rw [hq] at h
    cases h
  | cons j rest =>
    unfold dequeue_job at h
    rw [hq] at h
    simp only [Option.some.injEq, Prod.mk.injEq] at h
    obtain ⟨rfl, rfl⟩ := h
    constructor
    · simp only [lookup_active]
      rw [find?_set_active]
      rfl
    · simp only [run_job, lookup_active]
      rw [find?_del_active]
      rfl

/-- C8 witness: dequeuing the queued state creates user 1's entry, and a
login-failure exit removes it. -/
theorem active_downloads_lifecycle_witness :
    (lookup_active dequeuedState 1).isSome = true
    ∧ lookup_active (run_job dequeuedState queuedJob JobOutcome.loginFailed) 1 = none :=
  active_downloads_lifecycle queuedState queuedJob dequeuedState
    JobOutcome.loginFailed (by decide)

/-- C10: with a resource URL available, the license-only enqueue checks
nothing but queue capacity: for any state — whatever the user's
subscription, quota, ActiveDownloads or queued status — it accepts and
appends the license-only job whenever the queue is not full, rejects
exactly when the queue is full, and never touches the entitlement store,
leaving the daily quota count unchanged. -/
theorem license_enqueue_no_admission_checks (s : BotState) (u chat : Nat)
    (url : String) (mid : Nat) (today : Time) (hurl : url ≠ "") :
    (queue_full s = false →
      (handle_license_confirmation s u chat url mid).1 = .accepted
      ∧ (handle_license_confirmation s u chat url mid).2.download_queue
          = s.download_queue ++ [⟨u, chat, url, mid, true⟩])
    ∧ (queue_full s = true →
      (handle_license_confirmation s u chat url mid).1 = .queueFull
      ∧ (handle_license_confirmation s u chat url mid).2 = s)
    ∧ (handle_license_confirmation s u chat url mid).2.db = s.db
    ∧ quota_count (handle_license_confirmation s u chat url mid).2.db today u "freepik"
        = quota_count s.db today u "freepik" := by
  unfold handle_license_confirmation
  rw [if_pos hurl]
  by_cases hf : queue_full s = true
  · rw [if_pos hf]
    exact ⟨fun hc => absurd hf (by rw [hc]; exact Bool.false_ne_true),
      fun _ => ⟨rfl, rfl⟩, rfl, rfl⟩
  · rw [if_neg hf]
    exact ⟨fun _ => ⟨rfl, rfl⟩, fun hc => absurd hc hf, rfl, rfl⟩

/-- C10 witness: in the state where user 1 is already queued, the
license-only enqueue is still accepted and the quota count is
untouched. -/
theorem license_enqueue_no_admission_checks_witness :
    (handle_license_confirmation queuedState 1 2 "u1" 4).1 = LicenseResult.accepted
    ∧ quota_count (handle_license_confirmation queuedState 1 2 "u1" 4).2.db 50 1 "freepik"
        = quota_count queuedState.db 50 1 "freepik" :=
  ⟨((license_enqueue_no_admission_checks queuedState 1 2 "u1" 4 50 (by decide)).1
      (by decide)).1,
   (license_enqueue_no_admission_checks queuedState 1 2 "u1" 4 50 (by decide)).2.2.2⟩

end FreepikBot
